import Mathlib

/-!
Verification of the SolanaStakeTracker client staking core.

Shallow embedding of the second (authoritative) variants of
`client/src/hooks/useStaking.ts`, `client/src/utils/anchor.ts`,
`client/src/utils/solana.ts`, `client/src/utils/constants.ts` and
`client/src/components/StakingActions.tsx`.

Modelling conventions:
- Program addresses are modelled symbolically by their derivation
  (`Addr`): a base58 constant, a program-derived address from a seed
  layout, or an associated token account.  `findProgramAddress` is a
  pure deterministic hash of its inputs, so identical derivations give
  identical addresses and divergent seed layouts give distinct
  addresses (modulo SHA-256 collisions); the free algebra captures
  exactly that.
- Each RPC call site receives its response from an explicit environment
  record (`RpcResult`), so a run of an operation is a pure function of
  its inputs and the environment.  A JavaScript exception is modelled
  by an error constructor in the result type, never by partiality.
- React `useState` setters are modelled as immediate field updates on a
  `ClientState` record threaded through the run.
- Every externally visible step of a run (RPC calls, transaction
  submissions, sleeps, toasts) is recorded in a trace of `Effect`s, so
  claims about "zero RPC calls" or "zero submitted transactions" are
  statements about the trace.
- Human token amounts are JavaScript numbers; they are modelled as
  rationals, with `bn.js` number coercion modelled as truncation toward
  zero (`jsTrunc`).
-/

/-- Symbolic program address.  `base s` is a literal base58 constant
(`new PublicKey(s)`); `pda1 pid s` is `findProgramAddress([Buffer.from(s)], pid)`;
`pda2 pid s k` is `findProgramAddress([Buffer.from(s), k.toBuffer()], pid)`;
`ata mint owner` is `getAssociatedTokenAddress(mint, owner)`.  These are the
only seed layouts occurring in the repository. -/
inductive Addr where
  | base : String → Addr
  | pda1 : String → String → Addr
  | pda2 : String → String → Addr → Addr
  | ata : Addr → Addr → Addr
deriving DecidableEq, Repr

/-- `PROGRAM_ID` from `constants.ts`. -/
def PROGRAM_ID : String := "EnGhdovdYhHk4nsHEJr6gmV5cYfrx53ky19RD56eRRGm"

/-- `TOKEN_MINT_ADDRESS` from `constants.ts`. -/
def TOKEN_MINT_ADDRESS : Addr := .base "6f6GFixp6dh2UeMzDZpgR84rWgHu8oQVPWfrUUV94aj4"

/-- `VERIFIED_VAULT_ADDRESS` from `constants.ts` (hardcoded fallback vault). -/
def VERIFIED_VAULT_ADDRESS : Addr := .base "C9kigNZXbULbg1JiU9Fp5gn8Z5LDL3XNj9hSGpXFZbJY"

/-- `DECIMALS` from `constants.ts`: the token decimals property. -/
def DECIMALS : ℕ := 9

/-- The system program id (`SystemProgram.programId`). -/
def systemProgramId : Addr := .base "11111111111111111111111111111111"

/-- The SPL token program id (`TOKEN_PROGRAM_ID`). -/
def tokenProgramId : Addr := .base "TokenkegQfeZyiNwAJbNbGKPFXCWuBvf9Ss623VQ5DA"

/-- The rent sysvar (`SYSVAR_RENT_PUBKEY`). -/
def rentSysvar : Addr := .base "SysvarRent111111111111111111111111111111111"

/-- `findVaultPDA` in `useStaking.ts` (lines 565-571): the `global_state` PDA. -/
def findVaultPDA : Addr := .pda1 PROGRAM_ID "global_state"

/-- `findVaultAuthorityPDA` in `useStaking.ts` (lines 573-580): same seed as the
global state PDA. -/
def findVaultAuthorityPDA : Addr := .pda1 PROGRAM_ID "global_state"

/-- `findUserInfoPDA` in `useStaking.ts` (lines 582-588): the per-owner
`user_info` record PDA. -/
def findUserInfoPDA (owner : Addr) : Addr := .pda2 PROGRAM_ID "user_info" owner

/-- `findTokenVaultPDA` in `useStaking.ts` (lines 590-597): the associated token
account of the vault authority PDA for the token mint. -/
def findTokenVaultPDA : Addr := .ata TOKEN_MINT_ADDRESS findVaultAuthorityPDA

/-- `findStakingVault` in `anchor.ts` (lines 17-24). -/
def findStakingVault : Addr := .pda1 PROGRAM_ID "global_state"

/-- `findVaultAuthority` in `anchor.ts` (lines 27-34). -/
def findVaultAuthority : Addr := .pda1 PROGRAM_ID "global_state"

/-- `findUserStakeInfoAccount` in `anchor.ts` (lines 37-44). -/
def findUserStakeInfoAccount (walletPublicKey : Addr) : Addr :=
  .pda2 PROGRAM_ID "user_info" walletPublicKey

/-- The record returned by `getStakingAccounts` in `solana.ts`. -/
structure StakingAccounts where
  globalState : Addr
  userInfo : Addr
  vault : Addr
deriving DecidableEq, Repr

/-- `getStakingAccounts` in `solana.ts` (lines 51-82): derives the global state,
user info and vault addresses.  Note the vault is derived from the seed layout
`["vault", tokenMint]`, unlike the other call sites. -/
def getStakingAccounts (walletPublicKey : Addr) : StakingAccounts :=
  { globalState := .pda1 PROGRAM_ID "global_state"
    userInfo := .pda2 PROGRAM_ID "user_info" walletPublicKey
    vault := .pda2 PROGRAM_ID "vault" TOKEN_MINT_ADDRESS }

/-- JavaScript-to-`bn.js` number coercion: truncation toward zero (the `bn.js`
constructor masks the float through integer conversion).  Computed on the
canonical numerator and denominator so that it evaluates by kernel
reduction; `jsTrunc_eq_floor` below relates it to the floor on the
non-negative inputs the client passes. -/
def jsTrunc (q : ℚ) : ℤ := q.num.tdiv q.den

/-- `toBN` in `useStaking.ts` (lines 540-543): converts a human decimal amount
to base units with a hardcoded `10 ** 6` scale ("Assuming 6 decimals for the
token"), then truncates through the `bn.js` constructor.  The product
`amount * 10 ** 6` is formed on the numerator (`mkRat` keeps the value);
`toBN_eq_source` below proves this equal to the literal source shape. -/
def toBN (amount : ℚ) : ℤ := jsTrunc (mkRat (amount.num * 10 ^ 6) amount.den)

/-- `fromBN` in `useStaking.ts` (lines 546-548): base units back to a human
decimal amount, `amount / 10 ** 6` (`fromBN_eq_source` below). -/
def fromBN (amount : ℤ) : ℚ := mkRat amount (10 ^ 6)

/-- `toTokenAmount` in `anchor.ts` (lines 194-196): converts a human decimal
amount to base units using the `DECIMALS` constant
(`toTokenAmount_eq_source` below). -/
def toTokenAmount (amount : ℚ) : ℤ := jsTrunc (mkRat (amount.num * 10 ^ DECIMALS) amount.den)

/-- `fromTokenAmount` in `anchor.ts` (lines 199-201). -/
def fromTokenAmount (amount : ℤ) : ℚ := mkRat amount (10 ^ DECIMALS)

/-- A JavaScript error as observed by the client: its `name` and `message`. -/
structure RpcErr where
  name : String
  msg : String
deriving DecidableEq, Repr

/-- Outcome of one RPC or wallet call: the resolved value, or the thrown
error. -/
inductive RpcResult (α : Type) where
  | ok : α → RpcResult α
  | err : RpcErr → RpcResult α
deriving DecidableEq, Repr

/-- Whether the first character list is an initial segment of the second. -/
def charsStart : List Char → List Char → Bool
  | [], _ => true
  | _ :: _, [] => false
  | a :: as, b :: bs => a == b && charsStart as bs

/-- Whether the first character list occurs inside the second (the semantics of
JavaScript `String.prototype.includes`). -/
def charsHave (needle : List Char) : List Char → Bool
  | [] => charsStart needle []
  | c :: cs => charsStart needle (c :: cs) || charsHave needle cs

/-- `msg.includes(needle)` on strings. -/
def msgHas (needle msg : String) : Bool := charsHave needle.toList msg.toList

/-- The rate-limit classifier used at every retry site:
`err.message.includes('429')`. -/
def is429 (e : RpcErr) : Bool := msgHas "429" e.msg

/-- The absent-account classifier in the user info fetch:
`message.includes('Account does not exist') || message.includes('has no data')`. -/
def isNotExistErr (e : RpcErr) : Bool :=
  msgHas "Account does not exist" e.msg || msgHas "has no data" e.msg

/-- The wallet rejection classifier: `err.name` mentions
`WalletSendTransactionError`. -/
def isWalletSendErr (e : RpcErr) : Bool := msgHas "WalletSendTransactionError" e.name

/-- The fields of the on-chain `UserInfo` account that the client reads. -/
structure UserInfoAcct where
  stakedAmount : ℤ
  rewards : ℤ
  referralCount : ℤ
deriving DecidableEq, Repr

/-- The field of the on-chain `GlobalState` account that
`findTokenVaultAccount` reads; `vault` is optional because the loosely typed
decode can yield an absent field. -/
structure GlobalStateAcct where
  vault : Option Addr
deriving DecidableEq, Repr

/-- The instruction encoded into a submitted transaction. -/
inductive Instr where
  | registerIx (referrer : Option Addr)
  | stakeIx (amount : ℤ)
  | unstakeIx (amount : ℤ)
deriving DecidableEq, Repr

/-- A built transaction: instruction, ordered account list, fee payer and the
attached blockhash. -/
structure Tx where
  instr : Instr
  accounts : List Addr
  feePayer : Addr
  recentBlockhash : String
deriving DecidableEq, Repr

/-- One externally visible step of a client run. -/
inductive Effect where
  | getAccountInfoE (a : Addr)
  | getTokenBalanceE (a : Addr)
  | fetchAccountE (a : Addr)
  | getBlockhashE
  | sendTxE (tx : Tx)
  | confirmE (sig : String)
  | sleepE (ms : ℕ)
  | toastE (title : String)
deriving DecidableEq, Repr

/-- Whether an effect is a network call (RPC or transaction submission). -/
def Effect.isNetwork : Effect → Bool
  | .sleepE _ => false
  | .toastE _ => false
  | _ => true

/-- Whether an effect submits a transaction (the only mutating call kind). -/
def Effect.isSend : Effect → Bool
  | .sendTxE _ => true
  | _ => false

/-- Whether an effect is a token balance query. -/
def Effect.isBalQuery : Effect → Bool
  | .getTokenBalanceE _ => true
  | _ => false

/-- Number of network calls in a trace. -/
def netCount (tr : List Effect) : ℕ := (tr.filter Effect.isNetwork).length

/-- Number of submitted transactions in a trace. -/
def sendCount (tr : List Effect) : ℕ := (tr.filter Effect.isSend).length

/-- Number of underlying token balance queries in a trace. -/
def balQueryCount (tr : List Effect) : ℕ := (tr.filter Effect.isBalQuery).length

/-- Base-unit amounts of the stake instructions submitted in a trace. -/
def sentStakeAmounts (tr : List Effect) : List ℤ :=
  tr.filterMap fun e =>
    match e with
    | .sendTxE tx =>
      match tx.instr with
      | .stakeIx a => some a
      | _ => none
    | _ => none

/-- The cached client state managed by the `useStaking` hook. -/
structure ClientState where
  tokenBalance : ℚ
  stakedAmount : ℚ
  isLoading : Bool
  isProcessing : Bool
  isRegistered : Bool
  isRefreshing : Bool
  lastUpdateTime : ℕ
deriving DecidableEq, Repr

/-- The initial hook state: all balances zero, all flags false. -/
def initialState : ClientState :=
  { tokenBalance := 0, stakedAmount := 0, isLoading := false, isProcessing := false
    isRegistered := false, isRefreshing := false, lastUpdateTime := 0 }

/-- The decision of `checkUserRegistration` in `useStaking.ts` (lines 628-662)
on the response to its account lookup: true only when the account exists; a
null wallet, an absent account, and any thrown error (both catch blocks) all
yield false.  The function is total into `Bool`: no outcome is an exception. -/
def checkUserRegistration (publicKey : Option Addr) (resp : RpcResult (Option String)) : Bool :=
  match publicKey with
  | none => false
  | some _ =>
    match resp with
    | .ok (some _) => true
    | .ok none => false
    | .err _ => false

/-- `checkUserRegistration` with its trace: a 300 ms rate-limit delay followed
by the `getAccountInfo` lookup of the user info PDA. -/
def checkUserRegistrationRun (publicKey : Option Addr) (resp : RpcResult (Option String)) :
    Bool × List Effect :=
  match publicKey with
  | none => (false, [])
  | some p =>
    (checkUserRegistration (some p) resp, [.sleepE 300, .getAccountInfoE (findUserInfoPDA p)])

/-- The registration send loop of `useStaking.ts` (lines 733-768): up to three
attempts; EVERY failure is retried after a 1.5 s delay, and the last error is
rethrown.  Returns the outcome, the number of attempts made, and the list of
sleeps performed. -/
def registerSendLoop (send : ℕ → RpcResult String) : RpcResult String × ℕ × List ℕ :=
  match send 0 with
  | .ok s => (.ok s, 1, [])
  | .err _ =>
    match send 1 with
    | .ok s => (.ok s, 2, [1500])
    | .err _ =>
      match send 2 with
      | .ok s => (.ok s, 3, [1500, 1500])
      | .err e => (.err e, 3, [1500, 1500])

/-- Trace of one failed send attempt in the registration loop:
`handleTransaction` submits, and toasts when the wallet rejected. -/
def sendAttemptTrace (tx : Tx) (e : RpcErr) : List Effect :=
  [.sendTxE tx] ++ (if isWalletSendErr e then [.toastE "Wallet Transaction Error"] else [])

/-- The registration send loop with its trace of submissions, sleeps and
toasts. -/
def registerSendRun (tx : Tx) (send : ℕ → RpcResult String) :
    RpcResult String × List Effect :=
  match send 0 with
  | .ok s => (.ok s, [.sendTxE tx])
  | .err e0 =>
    match send 1 with
    | .ok s => (.ok s, sendAttemptTrace tx e0 ++ [.sleepE 1500, .sendTxE tx])
    | .err e1 =>
      match send 2 with
      | .ok s =>
        (.ok s, sendAttemptTrace tx e0 ++ [.sleepE 1500] ++ sendAttemptTrace tx e1 ++
          [.sleepE 1500, .sendTxE tx])
      | .err e2 =>
        (.err e2, sendAttemptTrace tx e0 ++ [.sleepE 1500] ++ sendAttemptTrace tx e1 ++
          [.sleepE 1500] ++ sendAttemptTrace tx e2)

/-- The token balance fetch wrapper of `refreshBalances` (lines 866-875): a
failure whose message mentions 429 is retried exactly once after a 500 ms
delay; any other failure propagates immediately.  Returns the outcome, the
number of attempts, and the sleeps. -/
def getTokenBalanceRetry (fetch : ℕ → RpcResult (Option ℚ)) :
    RpcResult (Option ℚ) × ℕ × List ℕ :=
  match fetch 0 with
  | .ok v => (.ok v, 1, [])
  | .err e => if is429 e then (fetch 1, 2, [500]) else (.err e, 1, [])

/-- The `fetchUserInfo` helper of `refreshBalances` (lines 898-921): a 429
failure is retried once after 500 ms; an absent-account failure becomes a null
result; anything else is rethrown (here: an error outcome). -/
def fetchUserInfoRun (pda : Addr) (fetch : ℕ → RpcResult UserInfoAcct) :
    RpcResult (Option UserInfoAcct) × List Effect :=
  match fetch 0 with
  | .ok ui => (.ok (some ui), [.fetchAccountE pda])
  | .err e =>
    if is429 e then
      match fetch 1 with
      | .ok ui => (.ok (some ui), [.fetchAccountE pda, .sleepE 500, .fetchAccountE pda])
      | .err e2 =>
        if isNotExistErr e2 then (.ok none, [.fetchAccountE pda, .sleepE 500, .fetchAccountE pda])
        else (.err e2, [.fetchAccountE pda, .sleepE 500, .fetchAccountE pda])
    else if isNotExistErr e then (.ok none, [.fetchAccountE pda])
    else (.err e, [.fetchAccountE pda])

/-- Environment of one `refreshBalances` run: attempt-indexed responses of the
token balance query (`Option` because `uiAmount` is nullable) and of the user
info account fetch. -/
structure RefreshEnv where
  balResp : ℕ → RpcResult (Option ℚ)
  userResp : ℕ → RpcResult UserInfoAcct

/-- `refreshBalances` in `useStaking.ts` (lines 849-954).  Returns immediately
when no wallet is connected or a refresh is already in flight.  Otherwise sets
the in-flight flags, queries the token balance (with the 429 retry; any failure
caches 0), then — only when registered and a program can be built — fetches the
staked amount (absent account and any failure cache 0), and finally clears the
flags. -/
def refreshBalances (publicKey : Option Addr) (hasSigner : Bool) (st : ClientState)
    (env : RefreshEnv) : ClientState × List Effect :=
  match publicKey with
  | none => (st, [])
  | some p =>
    if st.isRefreshing then (st, [])
    else
      let st1 := { st with isRefreshing := true, isLoading := true }
      let userATA := Addr.ata TOKEN_MINT_ADDRESS p
      let balPart : ℚ × List Effect :=
        match env.balResp 0 with
        | .ok v => (v.getD 0, [.sleepE 300, .getTokenBalanceE userATA])
        | .err e =>
          if is429 e then
            match env.balResp 1 with
            | .ok v =>
              (v.getD 0,
                [.sleepE 300, .getTokenBalanceE userATA, .sleepE 500, .getTokenBalanceE userATA])
            | .err _ =>
              (0, [.sleepE 300, .getTokenBalanceE userATA, .sleepE 500, .getTokenBalanceE userATA])
          else (0, [.sleepE 300, .getTokenBalanceE userATA])
      let st2 := { st1 with tokenBalance := balPart.1 }
      if st2.isRegistered then
        if hasSigner then
          let pda := findUserInfoPDA p
          let fetched := fetchUserInfoRun pda env.userResp
          let stakedVal : ℚ :=
            match fetched.1 with
            | .ok (some ui) => fromBN ui.stakedAmount
            | .ok none => 0
            | .err _ => 0
          ({ st2 with stakedAmount := stakedVal, isLoading := false, isRefreshing := false },
            balPart.2 ++ [.sleepE 300] ++ fetched.2)
        else
          ({ st2 with isLoading := false, isRefreshing := false }, balPart.2)
      else
        ({ st2 with stakedAmount := 0, isLoading := false, isRefreshing := false }, balPart.2)

/-- Environment of one `registerUser` run: one response per RPC call site. -/
structure RegEnv where
  checkResp : RpcResult (Option String)
  blockhash : RpcResult String
  send : ℕ → RpcResult String
  confirmResp : RpcResult Unit
  verifyResp : RpcResult (Option String)

/-- Outcome of `registerUser`: the undefined returns (no wallet / no program),
the idempotent early return (the string "already-registered"), a returned
signature, or a rethrown error. -/
inductive RegisterResult where
  | noWallet
  | noProgram
  | alreadyRegistered
  | signature (s : String)
  | threw (e : RpcErr)
deriving DecidableEq, Repr

/-- The registration transaction built by `registerUser` (lines 709-722):
`registerUser(null)` with accounts owner, userInfo, systemProgram, rent. -/
def registerTx (p : Addr) (bh : String) : Tx :=
  { instr := .registerIx none
    accounts := [p, findUserInfoPDA p, systemProgramId, rentSysvar]
    feePayer := p
    recentBlockhash := bh }

/-- `registerUser` in `useStaking.ts` (lines 665-843).  Returns undefined
without any call when no wallet or no program; checks registration first and
returns "already-registered" with zero submissions when the record exists;
otherwise builds the registration transaction, fetches a blockhash, submits
through the retrying send loop, confirms (a confirmation error is swallowed),
waits 1.5 s, re-checks existence, and returns the signature. -/
def registerUser (publicKey : Option Addr) (hasSigner : Bool) (st : ClientState)
    (env : RegEnv) : RegisterResult × ClientState × List Effect :=
  match publicKey with
  | none => (.noWallet, st, [])
  | some p =>
    if hasSigner then
      let chk := checkUserRegistrationRun (some p) env.checkResp
      if chk.1 then
        (.alreadyRegistered, { st with isRegistered := true },
          chk.2 ++ [.toastE "Already registered"])
      else
        let st1 := { st with isProcessing := true }
        match env.blockhash with
        | .err e =>
          (.threw e, { st1 with isProcessing := false },
            chk.2 ++ [.getBlockhashE, .toastE "Registration failed"])
        | .ok bh =>
          let tx := registerTx p bh
          let sent := registerSendRun tx env.send
          match sent.1 with
          | .err e =>
            (.threw e, { st1 with isProcessing := false },
              chk.2 ++ [.getBlockhashE] ++ sent.2 ++ [.toastE "Registration failed"])
          | .ok sig =>
            match env.confirmResp with
            | .err _ =>
              (.signature sig, { st1 with isProcessing := false },
                chk.2 ++ [.getBlockhashE] ++ sent.2 ++
                  [.confirmE sig, .toastE "Registration status unknown"])
            | .ok _ =>
              let ver := checkUserRegistrationRun (some p) env.verifyResp
              if ver.1 then
                (.signature sig, { st1 with isRegistered := true, isProcessing := false },
                  chk.2 ++ [.getBlockhashE] ++ sent.2 ++ [.confirmE sig, .sleepE 1500] ++
                    ver.2 ++ [.toastE "Registration successful"])
              else
                (.signature sig, { st1 with isProcessing := false },
                  chk.2 ++ [.getBlockhashE] ++ sent.2 ++ [.confirmE sig, .sleepE 1500] ++
                    ver.2 ++ [.toastE "Registration pending"])
    else (.noProgram, st, [])

/-- Environment of one `findTokenVaultAccount` run: the `getAccountInfo`
response for the global state PDA, and the outcome of the anchor account
decode (an error covers both a fetch failure and a parse failure). -/
structure VaultEnv where
  globalStateInfo : RpcResult (Option String)
  parsed : RpcResult GlobalStateAcct

/-- `findTokenVaultAccount` in `anchor.ts` (lines 109-162).  Looks up the
global state account; when it exists, tries to decode it and return its
`vault` field; every failure path — lookup error, absent account, decode
error, absent field — returns the hardcoded `VERIFIED_VAULT_ADDRESS`.  The
function is total: it never propagates an error. -/
def findTokenVaultAccount (env : VaultEnv) : Addr × List Effect :=
  let gsPDA := Addr.pda1 PROGRAM_ID "global_state"
  match env.globalStateInfo with
  | .err _ => (VERIFIED_VAULT_ADDRESS, [.getAccountInfoE gsPDA])
  | .ok none => (VERIFIED_VAULT_ADDRESS, [.getAccountInfoE gsPDA])
  | .ok (some _) =>
    match env.parsed with
    | .err _ => (VERIFIED_VAULT_ADDRESS, [.getAccountInfoE gsPDA, .fetchAccountE gsPDA])
    | .ok gs =>
      match gs.vault with
      | some v => (v, [.getAccountInfoE gsPDA, .fetchAccountE gsPDA])
      | none => (VERIFIED_VAULT_ADDRESS, [.getAccountInfoE gsPDA, .fetchAccountE gsPDA])

/-- Environment of one `stake` run: one response per RPC call site, the nested
environments of `registerUser`, `findTokenVaultAccount` and the
post-confirmation `refreshBalances`, and the clock value read at
`setLastUpdateTime(Date.now())`. -/
structure StakeEnv where
  checkResp : RpcResult (Option String)
  regEnv : RegEnv
  recheckResp : RpcResult (Option String)
  vaultEnv : VaultEnv
  blockhash : RpcResult String
  send : RpcResult String
  confirmResp : RpcResult Unit
  now : ℕ
  refreshEnv : RefreshEnv

/-- Outcome of `stake`: the undefined returns (no wallet / no program / the
registration-failure returns / the not-registered return), a returned
signature, or a rethrown error. -/
inductive StakeResult where
  | noWallet
  | noProgram
  | registrationFailed
  | notRegistered
  | signature (s : String)
  | threw (e : RpcErr)
deriving DecidableEq, Repr

/-- The stake transaction built by `stake` (lines 1049-1060):
`stake(toBN(amount))` with accounts owner, globalState, userInfo,
userTokenAccount, vault, tokenProgram, systemProgram. -/
def stakeTx (p vaultAddr : Addr) (amount : ℚ) (bh : String) : Tx :=
  { instr := .stakeIx (toBN amount)
    accounts := [p, findVaultPDA, findUserInfoPDA p, Addr.ata TOKEN_MINT_ADDRESS p,
      vaultAddr, tokenProgramId, systemProgramId]
    feePayer := p
    recentBlockhash := bh }

/-- Toasts emitted when a stake transaction fails: the inner catch toasts once
(wallet rejection gets its own title), then non-wallet errors are toasted
again by the outer catch. -/
def stakeFailToasts (e : RpcErr) : List Effect :=
  if isWalletSendErr e then [.toastE "Wallet Error"]
  else [.toastE "Staking failed", .toastE "Staking failed"]

/-- The transaction phase of `stake` (lines 1023-1120), entered once the user
is known to be registered: vault lookup, transaction build, blockhash fetch,
single submission, confirmation, then the forced balance refresh. -/
def stakeCore (p : Addr) (hasSigner : Bool) (amount : ℚ) (st : ClientState)
    (env : StakeEnv) (tr : List Effect) : StakeResult × ClientState × List Effect :=
  let vres := findTokenVaultAccount env.vaultEnv
  match env.blockhash with
  | .err e =>
    (.threw e, { st with isProcessing := false },
      tr ++ vres.2 ++ [.getBlockhashE] ++ [.toastE "Staking failed"])
  | .ok bh =>
    let tx := stakeTx p vres.1 amount bh
    match env.send with
    | .err e =>
      (.threw e, { st with isProcessing := false },
        tr ++ vres.2 ++ [.getBlockhashE, .sendTxE tx] ++ stakeFailToasts e)
    | .ok sig =>
      match env.confirmResp with
      | .err e =>
        (.threw e, { st with isProcessing := false },
          tr ++ vres.2 ++ [.getBlockhashE, .sendTxE tx, .confirmE sig] ++ stakeFailToasts e)
      | .ok _ =>
        let st2 := { st with lastUpdateTime := env.now }
        let ref := refreshBalances (some p) hasSigner st2 env.refreshEnv
        (.signature sig, { ref.1 with isProcessing := false },
          tr ++ vres.2 ++
            [.getBlockhashE, .sendTxE tx, .confirmE sig, .toastE "Staking successful"] ++ ref.2)

/-- `stake` in `useStaking.ts` (lines 957-1134).  No wallet or no program:
undefined return with no call.  Otherwise checks registration (an RPC call);
if unregistered, runs `registerUser` in a separate transaction, waits 2 s,
re-checks, and aborts with a toast when registration cannot be confirmed;
then runs the transaction phase.  Note: the function performs NO validation
of `amount` — neither positivity nor the cached balance bound. -/
def stake (publicKey : Option Addr) (hasSigner : Bool) (amount : ℚ) (st : ClientState)
    (env : StakeEnv) : StakeResult × ClientState × List Effect :=
  match publicKey with
  | none => (.noWallet, st, [])
  | some p =>
    if hasSigner then
      let st1 := { st with isProcessing := true }
      let chk := checkUserRegistrationRun (some p) env.checkResp
      if chk.1 then stakeCore p true amount st1 env chk.2
      else
        let reg := registerUser (some p) true st1 env.regEnv
        match reg.1 with
        | .threw _ =>
          (.registrationFailed, { reg.2.1 with isProcessing := false },
            chk.2 ++ reg.2.2 ++ [.toastE "Registration failed"])
        | .noWallet =>
          (.notRegistered, { reg.2.1 with isProcessing := false },
            chk.2 ++ reg.2.2 ++ [.toastE "Staking failed"])
        | .noProgram =>
          (.notRegistered, { reg.2.1 with isProcessing := false },
            chk.2 ++ reg.2.2 ++ [.toastE "Staking failed"])
        | _ =>
          let rechk := checkUserRegistrationRun (some p) env.recheckResp
          if rechk.1 then
            stakeCore p true amount reg.2.1 env
              (chk.2 ++ reg.2.2 ++ [.sleepE 2000] ++ rechk.2 ++
                [.toastE "Registration successful"])
          else
            (.registrationFailed, { reg.2.1 with isProcessing := false },
              chk.2 ++ reg.2.2 ++ [.sleepE 2000] ++ rechk.2 ++ [.toastE "Registration failed"])
    else (.noProgram, st, [])

/-- Environment of one `unstake` run. -/
structure UnstakeEnv where
  vaultEnv : VaultEnv
  blockhash : RpcResult String
  send : RpcResult String
  confirmResp : RpcResult Unit
  now : ℕ
  refreshEnv : RefreshEnv

/-- Outcome of `unstake`: the undefined returns (no wallet / no program / the
local insufficient-staked rejection), a returned signature, or a rethrown
error. -/
inductive UnstakeResult where
  | noWallet
  | noProgram
  | insufficientStaked
  | signature (s : String)
  | threw (e : RpcErr)
deriving DecidableEq, Repr

/-- The unstake transaction built by `unstake` (lines 1176-1187):
`unstake(toBN(amount))` with accounts owner, globalState, userInfo, vault,
userTokenAccount, tokenProgram, systemProgram. -/
def unstakeTx (p vaultAddr : Addr) (amount : ℚ) (bh : String) : Tx :=
  { instr := .unstakeIx (toBN amount)
    accounts := [p, findVaultPDA, findUserInfoPDA p, vaultAddr,
      Addr.ata TOKEN_MINT_ADDRESS p, tokenProgramId, systemProgramId]
    feePayer := p
    recentBlockhash := bh }

/-- Toasts emitted when an unstake transaction fails: the inner catch toasts
once (wallet rejection and the program insufficient-stake code 0x1770 get
their own titles); non-wallet errors are toasted again by the outer catch. -/
def unstakeFailToasts (e : RpcErr) : List Effect :=
  if isWalletSendErr e then [.toastE "Wallet Error"]
  else if msgHas "0x1770" e.msg || msgHas "InsufficientStake" e.msg then
    [.toastE "Insufficient Staked Balance", .toastE "Insufficient Staked Balance"]
  else [.toastE "Unstaking failed", .toastE "Unstaking failed"]

/-- `unstake` in `useStaking.ts` (lines 1137-1275).  No wallet or no program:
undefined return with no call.  Before any RPC call, an amount strictly
greater than the cached staked amount is rejected with the insufficient-staked
toast.  Otherwise: vault lookup, transaction build, blockhash fetch, single
submission, confirmation, forced balance refresh. -/
def unstake (publicKey : Option Addr) (hasSigner : Bool) (amount : ℚ) (st : ClientState)
    (env : UnstakeEnv) : UnstakeResult × ClientState × List Effect :=
  match publicKey with
  | none => (.noWallet, st, [])
  | some p =>
    if hasSigner then
      let st1 := { st with isProcessing := true }
      if amount > st1.stakedAmount then
        (.insufficientStaked, { st1 with isProcessing := false },
          [.toastE "Insufficient staked balance"])
      else
        let vres := findTokenVaultAccount env.vaultEnv
        match env.blockhash with
        | .err e =>
          (.threw e, { st1 with isProcessing := false },
            vres.2 ++ [.getBlockhashE] ++ [.toastE "Unstaking failed"])
        | .ok bh =>
          let tx := unstakeTx p vres.1 amount bh
          match env.send with
          | .err e =>
            (.threw e, { st1 with isProcessing := false },
              vres.2 ++ [.getBlockhashE, .sendTxE tx] ++ unstakeFailToasts e)
          | .ok sig =>
            match env.confirmResp with
            | .err e =>
              (.threw e, { st1 with isProcessing := false },
                vres.2 ++ [.getBlockhashE, .sendTxE tx, .confirmE sig] ++ unstakeFailToasts e)
            | .ok _ =>
              let st2 := { st1 with lastUpdateTime := env.now }
              let ref := refreshBalances (some p) hasSigner st2 env.refreshEnv
              (.signature sig, { ref.1 with isProcessing := false },
                vres.2 ++
                  [.getBlockhashE, .sendTxE tx, .confirmE sig, .toastE "Unstaking successful"] ++
                  ref.2)
    else (.noProgram, st, [])

/-- Environment of one wallet-connect effect run. -/
structure EffectEnv where
  checkResp : RpcResult (Option String)
  refreshEnv : RefreshEnv

/-- The wallet-connect effect in `useStaking.ts` (lines 1281-1314).  No wallet:
resets the cached balances and the registration flag.  Within 10 s of the last
update: skips entirely.  Otherwise checks registration, refreshes balances
only when registered or more than 30 s have elapsed, and stamps the update
time. -/
def walletEffect (publicKey : Option Addr) (hasSigner : Bool) (st : ClientState)
    (now : ℕ) (env : EffectEnv) : ClientState × List Effect :=
  match publicKey with
  | none => ({ st with tokenBalance := 0, stakedAmount := 0, isRegistered := false }, [])
  | some p =>
    if now - st.lastUpdateTime < 10000 then (st, [])
    else
      let chk := checkUserRegistrationRun (some p) env.checkResp
      let st1 := { st with isRegistered := chk.1 }
      if chk.1 ∨ now - st.lastUpdateTime > 30000 then
        let ref := refreshBalances (some p) hasSigner st1 env.refreshEnv
        ({ ref.1 with lastUpdateTime := now }, chk.2 ++ ref.2)
      else ({ st1 with lastUpdateTime := now }, chk.2)

/-- Outcome of the stake form submit handler. -/
inductive SubmitResult where
  | invalidAmount
  | insufficientBalance
  | stakeOutcome (r : StakeResult)
deriving DecidableEq, Repr

/-- `handleStakeSubmit` in `StakingActions.tsx` (lines 25-63).  The parsed
input is `none` for an empty field; an amount that is not positive, or that
exceeds the cached token balance, is rejected with a toast before `stake` is
invoked, so no RPC call is made.  Otherwise the core `stake` runs. -/
def handleStakeSubmit (input : Option ℚ) (publicKey : Option Addr) (hasSigner : Bool)
    (st : ClientState) (env : StakeEnv) : SubmitResult × ClientState × List Effect :=
  match input with
  | none => (.invalidAmount, st, [.toastE "Invalid amount"])
  | some q =>
    if q ≤ 0 then (.invalidAmount, st, [.toastE "Invalid amount"])
    else if q > st.tokenBalance then
      (.insufficientBalance, st, [.toastE "Insufficient balance"])
    else
      let r := stake publicKey hasSigner q st env
      (.stakeOutcome r.1, r.2.1, r.2.2)

/-- A concrete wallet owner used by the concrete runs below. -/
def pOwner : Addr := .base "FvK7jUeEjEdiFvxnyaRUMCmkBrjCJyApASgFry2SbArF"

/-- A vault-lookup environment in which the global state account is absent, so
the hardcoded fallback is used. -/
def okVaultEnv : VaultEnv :=
  { globalStateInfo := .ok none, parsed := .ok { vault := none } }

/-- A refresh environment in which every query succeeds. -/
def okRefreshEnv : RefreshEnv :=
  { balResp := fun _ => .ok (some 5), userResp := fun _ => .ok ⟨0, 0, 0⟩ }

/-- A registration environment in which the owner is already registered and
every call succeeds. -/
def okRegEnv : RegEnv :=
  { checkResp := .ok (some "acct"), blockhash := .ok "bh1"
    send := fun _ => .ok "regsig", confirmResp := .ok (), verifyResp := .ok (some "acct") }

/-- A stake environment in which the owner is already registered and every
call succeeds. -/
def okStakeEnv : StakeEnv :=
  { checkResp := .ok (some "acct"), regEnv := okRegEnv, recheckResp := .ok (some "acct")
    vaultEnv := okVaultEnv, blockhash := .ok "bh2", send := .ok "stakesig"
    confirmResp := .ok (), now := 0, refreshEnv := okRefreshEnv }

/-- An unstake environment in which every call succeeds. -/
def okUnstakeEnv : UnstakeEnv :=
  { vaultEnv := okVaultEnv, blockhash := .ok "bh3", send := .ok "unstakesig"
    confirmResp := .ok (), now := 0, refreshEnv := okRefreshEnv }

/-- A cached state for a registered owner holding 100 tokens with 40 staked. -/
def stRegistered : ClientState :=
  { initialState with isRegistered := true, tokenBalance := 100, stakedAmount := 40 }

/-- A terminal wallet-rejection error: not rate-limited, must not be
retried. -/
def terminalErr : RpcErr :=
  { name := "WalletSendTransactionError", msg := "User rejected the request" }

/-- A transient rate-limit error. -/
def err429 : RpcErr := { name := "Error", msg := "Server responded with 429 Too Many Requests" }

/-- A generic terminal RPC error. -/
def otherErr : RpcErr := { name := "Error", msg := "Invalid params" }

/-- A state with a refresh already in flight. -/
def inflightState : ClientState := { initialState with isRefreshing := true }

/-- A refresh environment whose balance query returns 42. -/
def bal42Env : RefreshEnv :=
  { balResp := fun _ => .ok (some 42), userResp := fun _ => .ok ⟨0, 0, 0⟩ }

/-- A vault-lookup environment in which the global state lookup itself
fails. -/
def errVaultEnv : VaultEnv := { globalStateInfo := .err otherErr, parsed := .ok { vault := none } }

/-- The fraction handed to `jsTrunc` by `toBN` is exactly the source
expression `amount * 10 ** 6`: the embedding computes the product on the
numerator only to stay kernel-evaluable. -/
theorem toBN_eq_source (amount : ℚ) :
    toBN amount = jsTrunc (amount * 10 ^ 6) := by
  have h : mkRat (amount.num * 10 ^ 6) amount.den = amount * 10 ^ 6 := by
    rw [Rat.mkRat_eq_div]
    push_cast
    conv_rhs => rw [← Rat.num_div_den amount]
    rw [div_mul_eq_mul_div]
    norm_num
  rw [toBN, h]

/-- The fraction handed to `jsTrunc` by `toTokenAmount` is exactly the source
expression `amount * Math.pow(10, DECIMALS)`. -/
theorem toTokenAmount_eq_source (amount : ℚ) :
    toTokenAmount amount = jsTrunc (amount * 10 ^ DECIMALS) := by
  have h : mkRat (amount.num * 10 ^ DECIMALS) amount.den = amount * 10 ^ DECIMALS := by
    rw [Rat.mkRat_eq_div]
    push_cast
    conv_rhs => rw [← Rat.num_div_den amount]
    rw [div_mul_eq_mul_div]
  rw [toTokenAmount, h]

/-- `fromBN` is the source expression `amount / 10 ** 6`. -/
theorem fromBN_eq_source (amount : ℤ) : fromBN amount = (amount : ℚ) / 10 ^ 6 := by
  rw [fromBN, Rat.mkRat_eq_div]
  push_cast
  ring

/-- On non-negative rationals — every amount the client scales — `jsTrunc` is
the floor: the scaled base-unit amount is never rounded up. -/
theorem jsTrunc_eq_floor (q : ℚ) (h : 0 ≤ q) : jsTrunc q = ⌊q⌋ := by
  conv_rhs => rw [← Rat.num_div_den q]
  rw [Rat.floor_intCast_div_natCast, jsTrunc,
    Int.tdiv_eq_ediv (Rat.num_nonneg.mpr h) (Int.natCast_nonneg q.den)]

/-- C1: the stake/unstake builders do NOT scale by the token's decimals
property.  Evaluating the code at the failing input: the human amount 1.5
passed to the stake builder is encoded by `toBN` as 1500000 (hardcoded
`10 ** 6` scale), not the 1500000000 that the claim requires and that
`toTokenAmount` — the helper actually built on `DECIMALS = 9` — produces; the
submitted stake transaction carries exactly that wrong base-unit amount, and
an amount of 0 encodes to 0 with no positivity guard in the builder. -/
theorem c1_stake_builder_scales_by_ten_pow_six :
    toBN (mkRat 3 2) = 1500000 ∧
    toTokenAmount (mkRat 3 2) = 1500000000 ∧
    DECIMALS = 9 ∧
    toBN (mkRat 3 2) ≠ toTokenAmount (mkRat 3 2) ∧
    sentStakeAmounts (stake (some pOwner) true (mkRat 3 2) stRegistered okStakeEnv).2.2 =
      [1500000] ∧
    toBN 0 = 0 ∧
    sentStakeAmounts (stake (some pOwner) true 0 stRegistered okStakeEnv).2.2 = [0] := by
  decide

/-- C2 counterexample: the three vault derivations disagree at a concrete
owner and the pinned mint — `getStakingAccounts` derives the vault from the
seed layout `["vault", tokenMint]`, `findTokenVaultPDA` derives it as the
associated token account of the `global_state` PDA, and the
`findTokenVaultAccount` fallback is the hardcoded constant; all three are
pairwise distinct addresses, so the claim that every call site derives the
same address for the same logical account is false. -/
theorem c2_vault_derivations_diverge :
    (getStakingAccounts pOwner).vault ≠ findTokenVaultPDA ∧
    (getStakingAccounts pOwner).vault ≠ VERIFIED_VAULT_ADDRESS ∧
    findTokenVaultPDA ≠ VERIFIED_VAULT_ADDRESS := by
  decide

/-- C2 (amended): the global-state and per-owner user-record derivations agree
across every call site (`useStaking.ts`, `anchor.ts`, `solana.ts`) for every
owner, but the vault derivation of `getStakingAccounts` differs from the vault
derivation of `findTokenVaultPDA` — the single pinned seed table holds for the
global state and user record, not for the vault. -/
theorem c2_seed_table_agreement (w : Addr) :
    findVaultPDA = findStakingVault ∧
    findVaultPDA = (getStakingAccounts w).globalState ∧
    findVaultAuthorityPDA = findVaultAuthority ∧
    findUserInfoPDA w = findUserStakeInfoAccount w ∧
    findUserInfoPDA w = (getStakingAccounts w).userInfo ∧
    (getStakingAccounts w).vault ≠ findTokenVaultPDA := by
  refine ⟨rfl, rfl, rfl, rfl, rfl, ?_⟩
  simp only [getStakingAccounts]
  decide

/-- C8: when no wallet is connected, `stake`, `unstake`, `registerUser` and
`refreshBalances` all return their undefined result immediately — no error
outcome, an empty effect trace (zero network calls), and the cached state
returned exactly unchanged. -/
theorem c8_no_wallet_noop (hs : Bool) (q : ℚ) (st : ClientState) (senv : StakeEnv)
    (uenv : UnstakeEnv) (renv : RegEnv) (fenv : RefreshEnv) :
    stake none hs q st senv = (.noWallet, st, []) ∧
    unstake none hs q st uenv = (.noWallet, st, []) ∧
    registerUser none hs st renv = (.noWallet, st, []) ∧
    refreshBalances none hs st fenv = (st, []) :=
  ⟨rfl, rfl, rfl, rfl⟩

/-- C9: `checkUserRegistration` is total into `Bool` — no outcome of the
lookup is an exception — and every error response (any message, 429 included)
yields `false`, the same value as a genuinely absent account, so a transient
failure is indistinguishable from an unregistered owner at the call site. -/
theorem c9_check_registration_never_throws (pk : Option Addr) (p : Addr) (e : RpcErr)
    (d : String) :
    checkUserRegistration pk (.err e) = false ∧
    checkUserRegistration pk (.err e) = checkUserRegistration pk (.ok none) ∧
    checkUserRegistration (some p) (.ok none) = false ∧
    checkUserRegistration (some p) (.ok (some d)) = true := by
  refine ⟨?_, ?_, rfl, rfl⟩ <;> cases pk <;> rfl

/-- C3 counterexample: the staking core performs no local amount checks — a
direct `stake` call with the non-positive amount 0, for a registered owner
with a cached balance of 100, still performs 7 network calls and submits 1
transaction, refuting the claim that such a call results in zero RPC calls
and zero submitted transactions. -/
theorem c3_stake_performs_no_local_checks :
    (0 : ℚ) ≤ 0 ∧
    netCount (stake (some pOwner) true 0 stRegistered okStakeEnv).2.2 = 7 ∧
    sendCount (stake (some pOwner) true 0 stRegistered okStakeEnv).2.2 = 1 := by
  decide

/-- C3 (amended): the `amount > 0` and `amount ≤ cached balance` checks are
performed in the UI submit handler (`handleStakeSubmit`), not inside the
staking core: a form submission whose parsed amount is not positive or
exceeds the cached token balance is rejected with a toast before `stake` is
invoked — zero network calls, zero submitted transactions, state unchanged —
while the core `stake` itself validates nothing (see its counterexample). -/
theorem c3_ui_prechecks_block (q : ℚ) (pk : Option Addr) (hs : Bool) (st : ClientState)
    (env : StakeEnv) (h : q ≤ 0 ∨ q > st.tokenBalance) :
    netCount (handleStakeSubmit (some q) pk hs st env).2.2 = 0 ∧
    sendCount (handleStakeSubmit (some q) pk hs st env).2.2 = 0 ∧
    (handleStakeSubmit (some q) pk hs st env).2.1 = st ∧
    ((handleStakeSubmit (some q) pk hs st env).1 = .invalidAmount ∨
      (handleStakeSubmit (some q) pk hs st env).1 = .insufficientBalance) := by
  by_cases hq : q ≤ 0
  · simp [handleStakeSubmit, if_pos hq, netCount, sendCount, Effect.isNetwork, Effect.isSend]
  · have hgt : q > st.tokenBalance := h.resolve_left hq
    simp [handleStakeSubmit, if_neg hq, if_pos hgt, netCount, sendCount, Effect.isNetwork,
      Effect.isSend]

/-- C3 witness: the amended theorem applied at the concrete non-positive
amount 0. -/
theorem c3_ui_prechecks_block_witness :
    netCount (handleStakeSubmit (some 0) (some pOwner) true stRegistered okStakeEnv).2.2 = 0 ∧
    sendCount (handleStakeSubmit (some 0) (some pOwner) true stRegistered okStakeEnv).2.2 = 0 :=
  ⟨(c3_ui_prechecks_block 0 (some pOwner) true stRegistered okStakeEnv (Or.inl (le_refl 0))).1,
   (c3_ui_prechecks_block 0 (some pOwner) true stRegistered okStakeEnv (Or.inl (le_refl 0))).2.1⟩

/-- C4 counterexample: a terminal failure — a wallet signer rejection, not
rate-limited — fed to the registration send loop is retried anyway: the loop
makes 3 attempts with two 1.5-second delays before surfacing it, refuting the
claim that every terminal failure propagates immediately without retry (and
the 300-500 ms backoff bound). -/
theorem c4_terminal_failure_retried :
    is429 terminalErr = false ∧
    isWalletSendErr terminalErr = true ∧
    registerSendLoop (fun _ => .err terminalErr) = (.err terminalErr, 3, [1500, 1500]) := by
  decide

/-- C4 (amended): the balance-query wrapper retries only failures classified
as rate-limited (message mentioning 429), exactly once, after a 500 ms
backoff, and surfaces every other failure immediately with a single attempt;
the registration send loop, by contrast, retries EVERY failure — terminal
signer rejections included — up to 3 attempts with 1.5-second delays. -/
theorem c4_retry_classification :
    (∀ (fetch : ℕ → RpcResult (Option ℚ)) (e : RpcErr),
        fetch 0 = .err e → is429 e = false → getTokenBalanceRetry fetch = (.err e, 1, [])) ∧
    (∀ (fetch : ℕ → RpcResult (Option ℚ)) (e : RpcErr),
        fetch 0 = .err e → is429 e = true → getTokenBalanceRetry fetch = (fetch 1, 2, [500])) ∧
    (∀ (send : ℕ → RpcResult String) (e : RpcErr),
        send 0 = .err e → 2 ≤ (registerSendLoop send).2.1) ∧
    (∀ e : RpcErr, registerSendLoop (fun _ => .err e) = (.err e, 3, [1500, 1500])) := by
  refine ⟨?_, ?_, ?_, ?_⟩
  · intro fetch e h h429
    simp [getTokenBalanceRetry, h, h429]
  · intro fetch e h h429
    simp [getTokenBalanceRetry, h, h429]
  · intro send e h
    simp only [registerSendLoop, h]
    rcases h1 : send 1 with s1 | e1
    · simp
    · rcases h2 : send 2 with s2 | e2 <;> simp
  · intro e
    simp [registerSendLoop]

/-- C4 witness: the amended theorem applied to a concrete terminal failure
(no retry, one attempt), a concrete 429 failure followed by success (one
retry after 500 ms), and the registration loop retrying a terminal signer
rejection. -/
theorem c4_retry_classification_witness :
    getTokenBalanceRetry (fun _ => .err otherErr) = (.err otherErr, 1, []) ∧
    getTokenBalanceRetry (fun n => if n = 0 then .err err429 else .ok (some 7)) =
      (.ok (some 7), 2, [500]) ∧
    2 ≤ (registerSendLoop (fun _ => .err terminalErr)).2.1 := by
  refine ⟨c4_retry_classification.1 _ otherErr rfl (by decide), ?_, ?_⟩
  · have h := c4_retry_classification.2.1 (fun n => if n = 0 then .err err429 else .ok (some 7))
      err429 rfl (by decide)
    simpa using h
  · exact c4_retry_classification.2.2.1 _ terminalErr rfl

/-- C5: registration is idempotent — when the lookup finds the per-owner
record at its derived address, `registerUser` returns the Registered outcome
("already-registered") with zero submitted transactions, changing only the
registration flag; calling it again from the resulting state does the same,
so two calls in a row perform zero mutating calls both times. -/
theorem c5_registration_idempotent (p : Addr) (d1 d2 : String) (st : ClientState)
    (env1 env2 : RegEnv) (h1 : env1.checkResp = .ok (some d1))
    (h2 : env2.checkResp = .ok (some d2)) :
    (registerUser (some p) true st env1).1 = .alreadyRegistered ∧
    sendCount (registerUser (some p) true st env1).2.2 = 0 ∧
    (registerUser (some p) true st env1).2.1 = { st with isRegistered := true } ∧
    (registerUser (some p) true (registerUser (some p) true st env1).2.1 env2).1 =
      .alreadyRegistered ∧
    sendCount (registerUser (some p) true (registerUser (some p) true st env1).2.1 env2).2.2 = 0 ∧
    (registerUser (some p) true (registerUser (some p) true st env1).2.1 env2).2.1 =
      { st with isRegistered := true } := by
  simp [registerUser, checkUserRegistrationRun, checkUserRegistration, h1, h2, sendCount,
    Effect.isSend]

/-- C5 witness: the theorem applied at a concrete owner whose record exists. -/
theorem c5_registration_idempotent_witness :
    (registerUser (some pOwner) true initialState okRegEnv).1 = .alreadyRegistered ∧
    sendCount (registerUser (some pOwner) true initialState okRegEnv).2.2 = 0 :=
  ⟨(c5_registration_idempotent pOwner "acct" "acct" initialState okRegEnv okRegEnv rfl rfl).1,
   (c5_registration_idempotent pOwner "acct" "acct" initialState okRegEnv okRegEnv rfl rfl).2.1⟩

/-- C7: an `unstake` call whose amount strictly exceeds the cached staked
amount is rejected with the insufficient-staked toast before any RPC call —
the trace holds zero network calls and zero submitted transactions, and the
only state change is clearing the processing flag. -/
theorem c7_unstake_insufficient_guard (p : Addr) (amount : ℚ) (st : ClientState)
    (env : UnstakeEnv) (h : amount > st.stakedAmount) :
    unstake (some p) true amount st env =
      (.insufficientStaked, { st with isProcessing := false },
        [.toastE "Insufficient staked balance"]) ∧
    netCount (unstake (some p) true amount st env).2.2 = 0 ∧
    sendCount (unstake (some p) true amount st env).2.2 = 0 := by
  have heq : unstake (some p) true amount st env =
      (.insufficientStaked, { st with isProcessing := false },
        [.toastE "Insufficient staked balance"]) := by
    simp [unstake, if_pos h]
  exact ⟨heq, by rw [heq]; rfl, by rw [heq]; rfl⟩

/-- C7 witness: the theorem applied at the concrete amount 50 against a
cached staked amount of 40. -/
theorem c7_unstake_insufficient_guard_witness :
    unstake (some pOwner) true 50 stRegistered okUnstakeEnv =
      (.insufficientStaked, { stRegistered with isProcessing := false },
        [.toastE "Insufficient staked balance"]) :=
  (c7_unstake_insufficient_guard pOwner 50 stRegistered okUnstakeEnv (by decide)).1

/-- C6 counterexample: a `refreshBalances` call made while a refresh is in
flight returns immediately with the state unchanged and an empty trace — the
caller performs zero queries and still sees the stale balance 0 even though
the in-flight refresh's oracle would deliver 42, so a concurrent caller does
NOT await or receive that refresh's outcome; moreover two back-to-back calls
from a quiescent state issue one balance query each (two in total, however
close in time — the function consults no clock), refuting the one-query
coalescing behaviour the claim describes. -/
theorem c6_inflight_caller_receives_nothing :
    refreshBalances (some pOwner) true inflightState bal42Env = (inflightState, []) ∧
    inflightState.tokenBalance = 0 ∧
    (refreshBalances (some pOwner) true initialState bal42Env).1.tokenBalance = 42 ∧
    balQueryCount (refreshBalances (some pOwner) true initialState bal42Env).2 = 1 ∧
    balQueryCount (refreshBalances (some pOwner) true
      (refreshBalances (some pOwner) true initialState bal42Env).1 bal42Env).2 = 1 := by
  decide

/-- C6 (amended): the `isRefreshing` flag does ensure at most one refresh is
in flight — a call during an in-flight refresh returns immediately with
nothing (no queries, no awaited outcome); `refreshBalances` itself has no
debounce window and no forced mode, so every call from a quiescent state
issues at least one balance query and ends with the flag cleared; the only
10-second window lives in the wallet-connect effect, which skips both the
registration check and the refresh entirely when it fires within 10 s of the
last update. -/
theorem c6_refresh_guard (p : Addr) (hs : Bool) (st : ClientState) (env : RefreshEnv)
    (now : ℕ) (eenv : EffectEnv) :
    (st.isRefreshing = true → refreshBalances (some p) hs st env = (st, [])) ∧
    (st.isRefreshing = false →
      1 ≤ balQueryCount (refreshBalances (some p) hs st env).2 ∧
      (refreshBalances (some p) hs st env).1.isRefreshing = false) ∧
    (now - st.lastUpdateTime < 10000 → walletEffect (some p) hs st now eenv = (st, [])) := by
  refine ⟨?_, ?_, ?_⟩
  · intro h
    simp [refreshBalances, h]
  · intro h
    rcases h0 : env.balResp 0 with v | e
    · cases hs
      all_goals cases hreg : st.isRegistered
      all_goals simp [refreshBalances, balQueryCount, Effect.isBalQuery, *]
    · cases h429 : is429 e
      · cases hs
        all_goals cases hreg : st.isRegistered
        all_goals simp [refreshBalances, balQueryCount, Effect.isBalQuery, *]
      · rcases h1 : env.balResp 1 with v1 | e1
        all_goals cases hs
        all_goals cases hreg : st.isRegistered
        all_goals simp [refreshBalances, balQueryCount, Effect.isBalQuery, *]
  · intro h
    simp [walletEffect, h]

/-- C6 witness: the amended theorem applied to an in-flight state (immediate
empty return), a quiescent state (at least one query), and a wallet-connect
effect 5 seconds after the last update (skipped). -/
theorem c6_refresh_guard_witness :
    refreshBalances (some pOwner) true inflightState bal42Env = (inflightState, []) ∧
    1 ≤ balQueryCount (refreshBalances (some pOwner) true initialState bal42Env).2 ∧
    walletEffect (some pOwner) true initialState 5000 ⟨.ok none, bal42Env⟩ =
      (initialState, []) :=
  ⟨(c6_refresh_guard pOwner true inflightState bal42Env 0 ⟨.ok none, bal42Env⟩).1 rfl,
   ((c6_refresh_guard pOwner true initialState bal42Env 0 ⟨.ok none, bal42Env⟩).2.1 rfl).1,
   (c6_refresh_guard pOwner true initialState bal42Env 5000 ⟨.ok none, bal42Env⟩).2.2
     (by decide)⟩

/-- C10: `findTokenVaultAccount` is total — it is a plain function into an
address, never an error — and on every failure path (the global state lookup
errors, the account is absent, the decode errors, or the decoded `vault`
field is absent) it returns the hardcoded `VERIFIED_VAULT_ADDRESS`; in every
run it returns either that constant or the vault read from the decoded global
state. -/
theorem c10_vault_lookup_total_fallback (env : VaultEnv) :
    (∀ e, env.globalStateInfo = .err e →
      (findTokenVaultAccount env).1 = VERIFIED_VAULT_ADDRESS) ∧
    (env.globalStateInfo = .ok none →
      (findTokenVaultAccount env).1 = VERIFIED_VAULT_ADDRESS) ∧
    (∀ e, env.parsed = .err e → (findTokenVaultAccount env).1 = VERIFIED_VAULT_ADDRESS) ∧
    (∀ gs, env.parsed = .ok gs → gs.vault = none →
      (findTokenVaultAccount env).1 = VERIFIED_VAULT_ADDRESS) ∧
    ((findTokenVaultAccount env).1 = VERIFIED_VAULT_ADDRESS ∨
      ∃ gs v, env.parsed = .ok gs ∧ gs.vault = some v ∧ (findTokenVaultAccount env).1 = v) := by
  refine ⟨?_, ?_, ?_, ?_, ?_⟩
  · intro e hg
    simp [findTokenVaultAccount, hg]
  · intro hg
    simp [findTokenVaultAccount, hg]
  · intro e hp
    rcases hg : env.globalStateInfo with v | e0
    · rcases v with _ | b <;> simp [findTokenVaultAccount, hg, hp]
    · simp [findTokenVaultAccount, hg]
  · intro gs hp hv
    rcases hg : env.globalStateInfo with v | e0
    · rcases v with _ | b <;> simp [findTokenVaultAccount, hg, hp, hv]
    · simp [findTokenVaultAccount, hg]
  · rcases hg : env.globalStateInfo with v | e0
    · rcases v with _ | b
      · left
        simp [findTokenVaultAccount, hg]
      · rcases hp : env.parsed with gs | e1
        · rcases hv : gs.vault with _ | w
          · left
            simp [findTokenVaultAccount, hg, hp, hv]
          · right
            exact ⟨gs, w, rfl, hv, by simp [findTokenVaultAccount, hg, hp, hv]⟩
        · left
          simp [findTokenVaultAccount, hg, hp]
    · left
      simp [findTokenVaultAccount, hg]

/-- C10 witness: the theorem applied to a concrete environment whose global
state lookup fails; the hardcoded vault constant is returned. -/
theorem c10_vault_lookup_total_fallback_witness :
    (findTokenVaultAccount errVaultEnv).1 = VERIFIED_VAULT_ADDRESS :=
  (c10_vault_lookup_total_fallback errVaultEnv).1 otherErr rfl
